import Mathlib

/-!
# Verification of the SCDRA agent loop and tools

Shallow embedding of `src/graph.py` and `src/tools.py` of the
supply-chain-disruption-response-agent repository: JSON values and a model
of Python's `json.loads`, the mock data tables, the tool functions, the
router, and the driver loop, together with theorems settling the spec's
claims about them.
-/

set_option maxRecDepth 10000

/-- JSON values, the common payload currency of the tools.  Python's
`json.dumps` serialization of a dict is modelled by the `obj` constructor
with fields in insertion order; numbers are modelled as exact rationals. -/
inductive Json where
  | null
  | bool (b : Bool)
  | num (q : ℚ)
  | str (s : String)
  | arr (elems : List Json)
  | obj (fields : List (String × Json))

/-- Field lookup in a JSON object, i.e. Python's `d[k]` / `d.get(k)` on the
dict modelled by `Json.obj` (first binding wins, as keys are unique). -/
def Json.lookup (j : Json) (key : String) : Option Json :=
  match j with
  | .obj fields => go fields
  | _ => none
where
  go : List (String × Json) → Option Json
    | [] => none
    | (k, v) :: rest => if k = key then some v else go rest

/-- Python's `round` on a value with `ndigits = None`: round half to even
(banker's rounding) to the nearest integer. -/
def roundHalfEven (q : ℚ) : ℤ :=
  let f := ⌊q⌋
  let frac := q - f
  if frac < 1/2 then f
  else if 1/2 < frac then f + 1
  else if f % 2 = 0 then f else f + 1

/-- Python's `round(x, 2)`: round half to even at two decimal places. -/
def pyRound2 (q : ℚ) : ℚ := (roundHalfEven (q * 100) : ℚ) / 100

section JsonParsing

/-- Whitespace skipping of Python's JSON decoder (space, tab, newline,
carriage return). -/
def skipWs : List Char → List Char
  | c :: cs => if c = ' ' ∨ c = '\t' ∨ c = '\n' ∨ c = '\r' then skipWs cs else c :: cs
  | [] => []

/-- Value of a hexadecimal digit, for `\uXXXX` string escapes. -/
def hexVal (c : Char) : Option Nat :=
  if '0' ≤ c ∧ c ≤ '9' then some (c.toNat - '0'.toNat)
  else if 'a' ≤ c ∧ c ≤ 'f' then some (c.toNat - 'a'.toNat + 10)
  else if 'A' ≤ c ∧ c ≤ 'F' then some (c.toNat - 'A'.toNat + 10)
  else none

/-- Body of a JSON string literal after the opening quote: returns the
decoded string and the input remaining after the closing quote.  Unescaped
control characters are rejected, as in Python's strict decoder. -/
def parseStrBody : List Char → List Char → Option (String × List Char)
  | [], _ => none
  | '"' :: r, acc => some (String.mk acc.reverse, r)
  | '\\' :: r, acc =>
    match r with
    | '"' :: r2 => parseStrBody r2 ('"' :: acc)
    | '\\' :: r2 => parseStrBody r2 ('\\' :: acc)
    | '/' :: r2 => parseStrBody r2 ('/' :: acc)
    | 'b' :: r2 => parseStrBody r2 ('\x08' :: acc)
    | 'f' :: r2 => parseStrBody r2 ('\x0c' :: acc)
    | 'n' :: r2 => parseStrBody r2 ('\n' :: acc)
    | 'r' :: r2 => parseStrBody r2 ('\r' :: acc)
    | 't' :: r2 => parseStrBody r2 ('\t' :: acc)
    | 'u' :: a :: b :: c :: d :: r2 =>
      match hexVal a, hexVal b, hexVal c, hexVal d with
      | some ha, some hb, some hc, some hd =>
        parseStrBody r2 (Char.ofNat (((ha * 16 + hb) * 16 + hc) * 16 + hd) :: acc)
      | _, _, _, _ => none
    | _ => none
  | c :: r, acc => if c.toNat < 32 then none else parseStrBody r (c :: acc)

/-- Consume a maximal run of decimal digits; fails when there is none. -/
def parseDigits (cs : List Char) : Option (List Char × List Char) :=
  let digits := cs.takeWhile fun c => '0' ≤ c ∧ c ≤ '9'
  if digits.isEmpty then none else some (digits, cs.drop digits.length)

/-- Natural-number value of a digit run. -/
def digitsToNat (ds : List Char) : Nat :=
  ds.foldl (fun n c => n * 10 + (c.toNat - '0'.toNat)) 0

/-- Rational value of a decoded JSON number literal with the given sign,
integer digits, fraction digits, exponent sign and exponent digits. -/
def decValue (neg : Bool) (intDs fracDs : List Char) (expNeg : Bool) (expDs : List Char) : ℚ :=
  (if neg then -1 else 1) *
    ((digitsToNat intDs : ℚ) + (digitsToNat fracDs : ℚ) / (10 : ℚ) ^ fracDs.length) *
    (10 : ℚ) ^ (if expNeg then -(digitsToNat expDs : ℤ) else (digitsToNat expDs : ℤ))

/-- A JSON number literal (`-? int frac? exp?`, leading zeros rejected as in
Python's decoder), returned as an exact rational. -/
def parseNum (cs : List Char) : Option (Json × List Char) :=
  let (neg, cs1) := match cs with
    | '-' :: r => (true, r)
    | _ => (false, cs)
  match parseDigits cs1 with
  | none => none
  | some (intDigits, cs2) =>
    if intDigits.length > 1 ∧ intDigits.head? = some '0' then none
    else
      let (fracDigits, cs3) := match cs2 with
        | '.' :: r =>
          match parseDigits r with
          | some (ds, r2) => (ds, r2)
          | none => ([], '.' :: r)
        | _ => ([], cs2)
      if cs2 ≠ cs3 ∧ fracDigits.isEmpty then none
      else
        let (expOk, expNeg, expDigits, cs4) := match cs3 with
          | 'e' :: r | 'E' :: r =>
            let (en, r1) := match r with
              | '-' :: r2 => (true, r2)
              | '+' :: r2 => (false, r2)
              | _ => (false, r)
            match parseDigits r1 with
            | some (ds, r2) => (true, en, ds, r2)
            | none => (false, false, ([] : List Char), cs3)
          | _ => (true, false, ([] : List Char), cs3)
        if ¬expOk then none
        else some (.num (decValue neg intDigits fracDigits expNeg expDigits), cs4)

/-- One JSON value from the input, fuelled; returns the value and the
remaining input.  Array and object tails re-enter through a re-prepended
opening bracket, so the input shrinks at every recursive call and fuel
`length + 1` always suffices.  A tail parse yielding an empty collection
means the comma was trailing, which Python rejects.  Duplicate object keys
follow Python's dict semantics: the first occurrence keeps its position,
the last occurrence supplies the value. -/
def parseVal : Nat → List Char → Option (Json × List Char)
  | 0, _ => none
  | n + 1, cs =>
    match skipWs cs with
    | 'n' :: 'u' :: 'l' :: 'l' :: r => some (.null, r)
    | 't' :: 'r' :: 'u' :: 'e' :: r => some (.bool true, r)
    | 'f' :: 'a' :: 'l' :: 's' :: 'e' :: r => some (.bool false, r)
    | '"' :: r => (parseStrBody r []).map fun p => (.str p.1, p.2)
    | '[' :: r =>
      match skipWs r with
      | ']' :: r2 => some (.arr [], r2)
      | r1 =>
        match parseVal n r1 with
        | none => none
        | some (v, r2) =>
          match skipWs r2 with
          | ',' :: r3 =>
            match parseVal n ('[' :: r3) with
            | some (.arr [], _) => none
            | some (.arr vs, r4) => some (.arr (v :: vs), r4)
            | _ => none
          | ']' :: r3 => some (.arr [v], r3)
          | _ => none
    | '{' :: r =>
      match skipWs r with
      | '}' :: r2 => some (.obj [], r2)
      | '"' :: r1 =>
        match parseStrBody r1 [] with
        | none => none
        | some (key, r2) =>
          match skipWs r2 with
          | ':' :: r3 =>
            match parseVal n r3 with
            | none => none
            | some (v, r4) =>
              match skipWs r4 with
              | ',' :: r5 =>
                match parseVal n ('{' :: r5) with
                | some (.obj [], _) => none
                | some (.obj kvs, r6) =>
                  some (.obj ((key, (Json.lookup (.obj kvs) key).getD v) ::
                    kvs.filter fun p => p.1 ≠ key), r6)
                | _ => none
              | '}' :: r5 => some (.obj [(key, v)], r5)
              | _ => none
          | _ => none
      | _ => none
    | cs1 => parseNum cs1

/-- Model of Python's `json.loads`: parse a complete JSON document; `none`
models `json.JSONDecodeError`.  (The non-standard `Infinity`/`NaN` literals
Python additionally accepts are outside the model.) -/
def parseJson (s : String) : Option Json :=
  match parseVal (s.length + 1) s.data with
  | some (v, rest) => if skipWs rest = [] then some v else none
  | none => none

end JsonParsing

/-! ## Tool 7: `calculate_financial_impact` (src/tools.py lines 462-491) -/

/-- Python runtime errors that can escape the tool body. -/
inductive PyError where
  | attributeError
  | typeError

/-- Python's `o.get("total_value", 0)` inside the generator of
`calculate_financial_impact`, together with the numeric coercion performed
by `sum`'s `+`: a non-dict element raises `AttributeError`; a present
non-numeric value raises `TypeError` when added (`True`/`False` count as
1/0). -/
def getTotalValue (o : Json) : Except PyError ℚ :=
  match o with
  | .obj _ =>
    match o.lookup "total_value" with
    | some (.num q) => .ok q
    | some (.bool b) => .ok (if b then 1 else 0)
    | some _ => .error .typeError
    | none => .ok 0
  | _ => .error .attributeError

/-- `sum(o.get("total_value", 0) for o in orders)`: left-to-right, the
first raising element aborts the sum. -/
def sumTotalValues : List Json → Except PyError ℚ
  | [] => .ok 0
  | o :: rest => do
    let v ← getTotalValue o
    let s ← sumTotalValues rest
    .ok (v + s)

/-- `"high" if risk_score > 0.6 else "medium" if risk_score > 0.3 else "low"`
(applied to the unrounded score, as in the source). -/
def riskLevel (risk_score : ℚ) : String :=
  if risk_score > 0.6 then "high" else if risk_score > 0.3 then "medium" else "low"

/-- The `impact` dict built by `calculate_financial_impact` from the summed
original order value (fields in insertion order). -/
def impactPayload (total_original : ℚ) : Json :=
  let cost_delta := total_original * 0.15
  let expedite_fees := total_original * 0.08
  let revenue_at_risk := total_original * 2.5
  let risk_score := min 0.85 (cost_delta / max total_original 1)
  .obj [
    ("total_original_value", .num (pyRound2 total_original)),
    ("estimated_cost_increase", .num (pyRound2 cost_delta)),
    ("expedite_shipping_fees", .num (pyRound2 expedite_fees)),
    ("revenue_at_risk", .num (pyRound2 revenue_at_risk)),
    ("total_financial_exposure", .num (pyRound2 (cost_delta + expedite_fees))),
    ("risk_score", .num (pyRound2 risk_score)),
    ("risk_level", .str (riskLevel risk_score))]

/-- The payload returned when `json.loads` raises on either argument. -/
def errorPayloadInvalidJson : Json :=
  .obj [("error", .str "Invalid JSON input. Provide valid JSON strings.")]

/-- `calculate_financial_impact(affected_orders, alt_pricing)`: decode both
JSON arguments (a decode failure is caught and reported as an error
payload), sum the `total_value` fields when the orders decode to a list
(`0` otherwise), and build the impact payload.  `Except.error` models a
Python exception escaping the tool. -/
def calculate_financial_impact (affected_orders alt_pricing : String) :
    Except PyError Json :=
  match parseJson affected_orders, parseJson alt_pricing with
  | some orders, some _pricing =>
    match orders with
    | .arr xs => do
      let t ← sumTotalValues xs
      .ok (impactPayload t)
    | _ => .ok (impactPayload 0)
  | _, _ => .ok errorPayloadInvalidJson

/-! ## Mock data tables (src/tools.py lines 24-175) -/

/-- One row of the `INVENTORY_DATA` dict (the dict key is carried as the
`sku` field, as `query_inventory_db` outputs `{"sku": sku_id, **data}`). -/
structure InvRow where
  sku : String
  name : String
  stock : ℕ
  reorder_point : ℕ
  supplier_id : String
  unit_cost : ℚ
  category : String

/-- The output row `{"sku": sku_id, **data}` for an inventory entry. -/
def InvRow.toJson (r : InvRow) : Json :=
  .obj [("sku", .str r.sku), ("name", .str r.name), ("stock", .num r.stock),
        ("reorder_point", .num r.reorder_point), ("supplier_id", .str r.supplier_id),
        ("unit_cost", .num r.unit_cost), ("category", .str r.category)]

/-- `INVENTORY_DATA`, in dict insertion order. -/
def INVENTORY_DATA : List InvRow :=
  [⟨"SKU-MCU2200", "Microcontroller MCU-2200", 1200, 500, "TPA-001", 4.50, "semiconductor"⟩,
   ⟨"SKU-MCU3300", "Microcontroller MCU-3300", 300, 400, "TPA-001", 6.75, "semiconductor"⟩,
   ⟨"SKU-RES10K", "Resistor 10K Ohm", 50000, 10000, "ECG-002", 0.02, "passive"⟩,
   ⟨"SKU-RES47K", "Resistor 47K Ohm", 35000, 8000, "ECG-002", 0.02, "passive"⟩,
   ⟨"SKU-CAP100", "Capacitor 100nF", 42000, 15000, "TPA-001", 0.05, "passive"⟩,
   ⟨"SKU-IND100", "Inductor 100uH", 18000, 5000, "ECG-002", 0.08, "passive"⟩]

/-- One entry of the `PURCHASE_ORDERS` list. -/
structure PoRow where
  po_id : String
  supplier_id : String
  sku : String
  quantity : ℕ
  status : String
  expected_delivery : String
  total_value : ℚ

/-- The serialized form of a purchase-order dict. -/
def PoRow.toJson (r : PoRow) : Json :=
  .obj [("po_id", .str r.po_id), ("supplier_id", .str r.supplier_id),
        ("sku", .str r.sku), ("quantity", .num r.quantity), ("status", .str r.status),
        ("expected_delivery", .str r.expected_delivery), ("total_value", .num r.total_value)]

/-- `PURCHASE_ORDERS`, in source order. -/
def PURCHASE_ORDERS : List PoRow :=
  [⟨"PO-2024-001", "TPA-001", "SKU-MCU2200", 10000, "open", "2025-03-15", 45000.00⟩,
   ⟨"PO-2024-002", "TPA-001", "SKU-MCU3300", 5000, "open", "2025-03-20", 33750.00⟩,
   ⟨"PO-2024-003", "ECG-002", "SKU-RES10K", 100000, "open", "2025-03-05", 2000.00⟩,
   ⟨"PO-2024-004", "TPA-001", "SKU-CAP100", 50000, "in_transit", "2025-02-28", 2500.00⟩]

/-- One value of the `SUPPLIER_PRICING` dict. -/
structure PricingRow where
  price : ℚ
  lead_time_days : ℕ
  moq : ℕ

/-- `SUPPLIER_PRICING`, keyed by `(supplier_id, sku)` in insertion order. -/
def SUPPLIER_PRICING : List ((String × String) × PricingRow) :=
  [(("TPA-001", "SKU-MCU2200"), ⟨4.50, 18, 5000⟩),
   (("TPA-001", "SKU-MCU3300"), ⟨6.75, 18, 5000⟩),
   (("TPA-001", "SKU-CAP100"), ⟨0.05, 14, 10000⟩),
   (("ALT-003", "SKU-MCU2200"), ⟨5.25, 12, 2000⟩),
   (("ALT-003", "SKU-MCU3300"), ⟨7.80, 12, 2000⟩),
   (("ALT-004", "SKU-RES10K"), ⟨0.025, 10, 500⟩),
   (("ALT-004", "SKU-CAP100"), ⟨0.06, 12, 500⟩),
   (("ECG-002", "SKU-RES10K"), ⟨0.02, 8, 1000⟩),
   (("ECG-002", "SKU-RES47K"), ⟨0.02, 8, 1000⟩),
   (("ECG-002", "SKU-IND100"), ⟨0.08, 8, 1000⟩),
   (("MFG-005", "SKU-MCU2200"), ⟨9.00, 25, 1000⟩),
   (("MFG-005", "SKU-MCU3300"), ⟨13.50, 25, 1000⟩)]

/-! ## Tool 5: `get_supplier_pricing` (src/tools.py lines 399-413) -/

/-- `get_supplier_pricing(supplier_id, sku)`: look the pair up in the
static pricing table; a hit yields `{"supplier_id", "sku", **data}` and a
miss the error payload, exactly as in the source. -/
def get_supplier_pricing (supplier_id sku : String) : Json :=
  match SUPPLIER_PRICING.lookup (supplier_id, sku) with
  | some data =>
    .obj [("supplier_id", .str supplier_id), ("sku", .str sku),
          ("price", .num data.price), ("lead_time_days", .num data.lead_time_days),
          ("moq", .num data.moq)]
  | none =>
    .obj [("error", .str ("No pricing found for supplier " ++ supplier_id ++ ", SKU " ++
      sku ++ ". Try a different supplier_id or sku combination."))]

/-! ## Tool 2: `query_inventory_db` (src/tools.py lines 284-314) -/

/-- Python's substring test `needle in hay`. -/
def strContains (hay needle : String) : Bool :=
  hay.data.tails.any fun t => needle.data.isPrefixOf t

/-- Python's `str.lower()` (per-character lowering; the data involved is
ASCII). -/
def pyLower (s : String) : String := String.mk (s.data.map Char.toLower)

/-- Python's `category.replace("_", " ")`: a single-character pattern
replace is a character map. -/
def replaceUnderscores (s : String) : String :=
  String.mk (s.data.map fun c => if c = '_' then ' ' else c)

/-- `query_inventory_db(sql)`: a query mentioning `purchase_order`/`po`
filters the PO table by supplier / status / `all` / `*` terms, any other
query filters the inventory table by supplier / sku / `all` / `*` terms;
an empty filter result falls back to the whole table.  Returns the list of
row dicts that the source JSON-serializes. -/
def query_inventory_db (sql : String) : List Json :=
  let sqlLower := pyLower sql
  if strContains sqlLower "purchase_order" || strContains sqlLower "po" then
    let results := PURCHASE_ORDERS.filter fun po =>
      strContains sqlLower (pyLower po.supplier_id) || strContains sqlLower (pyLower po.status) ||
        strContains sqlLower "all" || strContains sqlLower "*"
    (if results.isEmpty then PURCHASE_ORDERS else results).map PoRow.toJson
  else
    let results := INVENTORY_DATA.filter fun row =>
      strContains sqlLower (pyLower row.supplier_id) || strContains sqlLower (pyLower row.sku) ||
        strContains sqlLower "all" || strContains sqlLower "*"
    (if results.isEmpty then INVENTORY_DATA else results).map InvRow.toJson

/-! ## Tool 3: `fetch_disruption_alerts` (src/tools.py lines 321-356) -/

/-- `fetch_disruption_alerts(region, category)`: unconditionally builds the
one-element alert list interpolating the two arguments. -/
def fetch_disruption_alerts (region category : String) : Json :=
  .arr [.obj [
    ("alert_id", .str "ALERT-2025-0042"),
    ("region", .str region),
    ("category", .str category),
    ("headline", .str ("Major " ++ replaceUnderscores category ++ " reported in " ++ region)),
    ("severity", .str "high"),
    ("source", .str "Supply Chain Risk Monitor"),
    ("timestamp", .str "2025-02-23T14:30:00Z"),
    ("details", .str ("Significant " ++ replaceUnderscores category ++ " detected affecting " ++
      region ++ " supply chains. Multiple suppliers in the region reporting " ++
      "delays of 2-3 weeks. Recommended action: activate backup suppliers " ++
      "and review affected purchase orders immediately."))]]

/-- Validation of tool-call arguments against `FetchDisruptionAlertsInput`
(src/tools.py lines 321-329): the pydantic schema declares `region` and
`category` as required `str` fields and imposes no further constraint (in
particular no minimum length), so validation only checks that both fields
are present string values. -/
def validFetchDisruptionAlertsArgs (args : List (String × Json)) : Option (String × String) :=
  match (Json.obj args).lookup "region", (Json.obj args).lookup "category" with
  | some (.str r), some (.str c) => some (r, c)
  | _, _ => none

/-- Outcome of executing a tool call: schema validation can fail, otherwise
the tool body runs and returns its payload. -/
inductive ToolExecOutcome where
  | validationError
  | ok (payload : Json)

/-- Execution of a `fetch_disruption_alerts` tool call: validate the
arguments against the schema, then run the tool body. -/
def runFetchDisruptionAlerts (args : List (String × Json)) : ToolExecOutcome :=
  match validFetchDisruptionAlertsArgs args with
  | some (r, c) => .ok (fetch_disruption_alerts r c)
  | none => .validationError

/-! ## Tool 10: `update_purchase_order` (src/tools.py lines 608-627) -/

/-- `update_purchase_order(po_id, new_supplier, new_terms)`: returns the
mock success payload; `previous_supplier` is the literal `"TPA-001"`. -/
def update_purchase_order (po_id new_supplier new_terms : String) : Json :=
  .obj [("status", .str "updated"), ("po_id", .str po_id),
        ("previous_supplier", .str "TPA-001"), ("new_supplier", .str new_supplier),
        ("new_terms", .str new_terms), ("timestamp", .str "2025-02-23T15:05:00Z"),
        ("note", .str "[MOCK] PO update simulated — no actual ERP change made.")]

/-! ## Tool 1: `search_supplier_docs` (src/tools.py lines 245-268) -/

/-- The `n_results` value `min(top_k, 10)` passed to
`collection.query` by `search_supplier_docs`. -/
def nResultsRequested (top_k : ℤ) : ℤ := min top_k 10

/-- One formatted line `[Result i+1] (Supplier: …, Region: …) doc` with the
`meta.get(…, "N/A")` defaults of the source. -/
def formatDocResult (i : ℕ) (doc : String) (meta : List (String × String)) : String :=
  "[Result " ++ toString (i + 1) ++ "] (Supplier: " ++ ((meta.lookup "supplier_id").getD "N/A")
    ++ ", Region: " ++ ((meta.lookup "region").getD "N/A") ++ ") " ++ doc

/-- `search_supplier_docs(query, top_k)` over an opaque vector-store
capability `store` (ChromaDB): ask the store for `min(top_k, 10)` results
and format them; an empty result list yields the fixed no-match string. -/
def search_supplier_docs (store : String → ℤ → List (String × List (String × String)))
    (query : String) (top_k : ℤ) : String :=
  let results := store query (nResultsRequested top_k)
  let formatted := results.enum.map fun p => formatDocResult p.1 p.2.1 p.2.2
  if formatted.isEmpty then "No matching supplier documents found."
  else String.intercalate "\n\n" formatted

/-! ## Graph: state, router, driver (src/graph.py) -/

/-- A structured tool invocation emitted by the model. -/
structure ToolCall where
  id : String
  name : String
  args : List (String × Json)

/-- Conversation entries: human messages, AI messages (text plus a possibly
empty tool-call list), and tool-result messages. -/
inductive Message where
  | human (text : String)
  | ai (text : String) (tool_calls : List ToolCall)
  | toolResult (tool_call_id : String) (content : String)

/-- Python's `hasattr(msg, "tool_calls")` probe used by the router: only AI
messages carry the attribute. -/
def pyToolCalls : Message → Option (List ToolCall)
  | .ai _ tcs => some tcs
  | _ => none

/-- Number of tool calls carried by a message (0 when the attribute is
absent). -/
def toolCallCount (m : Message) : ℕ :=
  match pyToolCalls m with
  | some tcs => tcs.length
  | none => 0

/-- LangGraph's `END` sentinel. -/
def END : String := "__end__"

/-- `route_agent_output(state)` (src/graph.py lines 136-150): look at
`state["messages"][-1]`; a message with a `tool_calls` attribute holding at
least one call routes to `"tools"`, anything else to `END`.  The `Option`
models the `IndexError` on an empty history, which the claim's histories
exclude. -/
def route_agent_output (messages : List Message) : Option String :=
  messages.getLast?.map fun last_message =>
    match pyToolCalls last_message with
    | some tool_calls => if tool_calls.length > 0 then "tools" else END
    | none => END

/-- Modelled from the spec: LangGraph's `add_messages` reducer is library
code not under `src/`; per the spec ("History is append-only; no entry is
ever mutated or removed once recorded") and the `State` docstring in
src/graph.py ("automatically appends new messages rather than
overwriting"), it appends the update to the stored history. -/
def addMessages (old new : List Message) : List Message := old ++ new

/-- Terminal outcome of a run: reached `DONE`, or aborted with
`BudgetExceededError`; both carry the accumulated history. -/
inductive RunResult where
  | done (history : List Message)
  | budgetExceeded (history : List Message)

/-- The accumulated history of a run outcome. -/
def RunResult.history : RunResult → List Message
  | .done h => h
  | .budgetExceeded h => h

/-- Whether the run reached the `DONE` state. -/
def RunResult.isDone : RunResult → Bool
  | .done _ => true
  | .budgetExceeded _ => false

/-- Whether the run aborted with `BudgetExceededError`. -/
def RunResult.isBudgetExceeded : RunResult → Bool
  | .done _ => false
  | .budgetExceeded _ => true

/-- Modelled from the spec: the driver loop (spec §4.5; LangGraph's
compiled-graph execution engine is not under `src/`), instantiated with the
graph topology of `build_graph` and the src router.  The agent step is an
opaque capability `llm`; `exec` is the opaque per-call tool execution of the
Tool Executor, which appends one tool-result per call in call order.  The
budget is decremented at each agent step; a run whose budget is exhausted
before the router terminates aborts with `BudgetExceededError`. -/
def drive (llm : List Message → Message) (exec : ToolCall → String) :
    Nat → List Message → RunResult
  | 0, history => .budgetExceeded history
  | b + 1, history =>
    let response := llm history
    let h1 := addMessages history [response]
    if route_agent_output h1 = some "tools" then
      let results := ((pyToolCalls response).getD []).map
        fun tc => Message.toolResult tc.id (exec tc)
      drive llm exec b (addMessages h1 results)
    else .done h1

/-- A nonnegative integer literal decodes to its digit value. -/
lemma decValue_pos (ds : List Char) :
    decValue false ds [] false [] = (digitsToNat ds : ℚ) := by
  simp [decValue, digitsToNat]

/-- A negated integer literal decodes to minus its digit value. -/
lemma decValue_neg (ds : List Char) :
    decValue true ds [] false [] = -(digitsToNat ds : ℚ) := by
  simp [decValue, digitsToNat]


/-- Routing a history that ends in `m`: `"tools"` iff `m` carries at least
one tool call, `END` otherwise. -/
lemma route_agent_output_append (h : List Message) (m : Message) :
    route_agent_output (addMessages h [m]) =
      some (if 0 < toolCallCount m then "tools" else END) := by
  unfold route_agent_output addMessages
  rw [List.getLast?_concat]
  cases m <;> simp [pyToolCalls, toolCallCount]

/-- Banker's rounding never goes below the floor. -/
lemma floor_le_roundHalfEven (q : ℚ) : ⌊q⌋ ≤ roundHalfEven q := by
  simp only [roundHalfEven]
  split_ifs <;> omega

/-- Banker's rounding never goes above the ceiling. -/
lemma roundHalfEven_le_ceil (q : ℚ) : roundHalfEven q ≤ ⌈q⌉ := by
  have hfc : ⌊q⌋ ≤ ⌈q⌉ := Int.floor_le_ceil q
  have hup : ¬((q : ℚ) - ⌊q⌋ < 1/2) → ⌊q⌋ + 1 ≤ ⌈q⌉ := by
    intro hh
    have hlt : (⌊q⌋ : ℚ) < q := by
      push_neg at hh
      linarith
    have := Int.lt_ceil.mpr hlt
    omega
  simp only [roundHalfEven]
  split_ifs with h1 h2 h3
  · exact hfc
  · exact hup h1
  · exact hfc
  · exact hup h1

/-- `round(q, 2)` of a nonnegative value is nonnegative. -/
lemma pyRound2_nonneg {q : ℚ} (h : 0 ≤ q) : 0 ≤ pyRound2 q := by
  unfold pyRound2
  have h1 : (0 : ℤ) ≤ ⌊q * 100⌋ := Int.floor_nonneg.mpr (by positivity)
  have h2 : (0 : ℤ) ≤ roundHalfEven (q * 100) := le_trans h1 (floor_le_roundHalfEven _)
  have h3 : (0 : ℚ) ≤ (roundHalfEven (q * 100) : ℚ) := by exact_mod_cast h2
  positivity

/-- `round(q, 2)` of a value at most `0.85` is at most `1`. -/
lemma pyRound2_le_one {q : ℚ} (h : q ≤ 0.85) : pyRound2 q ≤ 1 := by
  unfold pyRound2
  have h1 : ⌈q * 100⌉ ≤ (85 : ℤ) := Int.ceil_le.mpr (by push_cast; linarith)
  have h2 : roundHalfEven (q * 100) ≤ 85 := le_trans (roundHalfEven_le_ceil _) h1
  have h3 : (roundHalfEven (q * 100) : ℚ) ≤ 85 := by exact_mod_cast h2
  linarith

/-- The fall-back of `query_inventory_db`: serializing either the non-empty
filter result or, when it is empty, a non-empty table never yields `[]`. -/
lemma fallback_ne_nil {α β : Type} (f : α → β) (l tbl : List α) (h : tbl ≠ []) :
    (if l.isEmpty then tbl else l).map f ≠ [] := by
  cases l with
  | nil => simpa using h
  | cons a t => simp

/-- C1: the router is a deterministic, pure function of the last history
entry: a last message with at least one tool call routes to `"tools"`, one
with zero tool calls (text only, or without the attribute) routes to `END`,
and histories with equal last messages get equal routing decisions. -/
theorem router_pure_function_of_tail (msgs : List Message) (m : Message)
    (hlast : msgs.getLast? = some m) :
    (0 < toolCallCount m → route_agent_output msgs = some "tools") ∧
    (toolCallCount m = 0 → route_agent_output msgs = some END) ∧
    (∀ msgs' : List Message, msgs'.getLast? = some m →
      route_agent_output msgs' = route_agent_output msgs) := by
  refine ⟨?_, ?_, ?_⟩
  · intro hc
    unfold route_agent_output
    rw [hlast]
    cases m <;> simp_all [pyToolCalls, toolCallCount]
  · intro hc
    unfold route_agent_output
    rw [hlast]
    cases m <;> simp_all [pyToolCalls, toolCallCount]
  · intro msgs' hlast'
    unfold route_agent_output
    rw [hlast, hlast']

/-- Witness for C1 at a one-message history whose last message carries one
tool call. -/
theorem router_pure_function_of_tail_witness :
    [Message.ai "checking" [⟨"call_1", "query_inventory_db", []⟩]].getLast? =
      some (Message.ai "checking" [⟨"call_1", "query_inventory_db", []⟩]) ∧
    route_agent_output [Message.ai "checking" [⟨"call_1", "query_inventory_db", []⟩]] =
      some "tools" :=
  ⟨rfl,
    (router_pure_function_of_tail
      [Message.ai "checking" [⟨"call_1", "query_inventory_db", []⟩]]
      (Message.ai "checking" [⟨"call_1", "query_inventory_db", []⟩]) rfl).1 (by decide)⟩

/-- C2: with a model that always requests at least one tool call, a run
never reaches `DONE` for any budget and any seed history: it aborts as
`budgetExceeded` (the spec's `BudgetExceededError`) once the budget is
exhausted.  The driver `drive` is total by construction, so the loop also
never runs forever. -/
theorem always_tools_never_done (llm : List Message → Message)
    (exec : ToolCall → String) (hllm : ∀ h, 0 < toolCallCount (llm h)) :
    ∀ (budget : Nat) (history : List Message),
      (drive llm exec budget history).isDone = false ∧
      (drive llm exec budget history).isBudgetExceeded = true := by
  intro budget
  induction budget with
  | zero => exact fun _ => ⟨rfl, rfl⟩
  | succ n ih =>
    intro h
    have hr : route_agent_output (addMessages h [llm h]) = some "tools" := by
      rw [route_agent_output_append, if_pos (hllm h)]
    simp only [drive, hr, if_pos]
    exact ih _

/-- Witness for C2: a model double that always emits one tool call, budget
1, empty seed history. -/
theorem always_tools_never_done_witness :
    (∀ h : List Message,
      0 < toolCallCount ((fun _ => Message.ai "" [⟨"call_1", "fetch_disruption_alerts", []⟩]) h)) ∧
    (drive (fun _ => Message.ai "" [⟨"call_1", "fetch_disruption_alerts", []⟩])
      (fun _ => "payload") 1 []).isDone = false :=
  ⟨fun _ => Nat.one_pos,
    (always_tools_never_done (fun _ => Message.ai "" [⟨"call_1", "fetch_disruption_alerts", []⟩])
      (fun _ => "payload") (fun _ => Nat.one_pos) 1 []).1⟩

/-- C3 counterexample: the valid-JSON argument pair
`affected_orders = "[1]"`, `alt_pricing = "{}"` makes the tool raise an
`AttributeError` (`(1).get("total_value", 0)` on a non-dict list element)
instead of returning normally, so the claim that the tool never raises for
any input strings is false. -/
theorem financial_impact_raises_on_nonobject_element :
    calculate_financial_impact "[1]" "\x7b\x7d" = .error .attributeError := by rfl

/-- C3 (amended): when either argument string is not valid JSON the tool
catches the decode error and returns the structured payload with the
`"error"` field, raising nothing; the blanket no-raise claim fails for some
valid-JSON inputs (see the counterexample). -/
theorem financial_impact_catches_invalid_json (s1 s2 : String)
    (h : parseJson s1 = none ∨ parseJson s2 = none) :
    calculate_financial_impact s1 s2 = .ok errorPayloadInvalidJson := by
  cases hp : parseJson s1 <;> cases hq : parseJson s2 <;>
    simp_all [calculate_financial_impact]

/-- Witness for C3 (amended) at a malformed `affected_orders` string. -/
theorem financial_impact_catches_invalid_json_witness :
    (parseJson "not json" = none ∨ parseJson "\x7b\x7d" = none) ∧
    calculate_financial_impact "not json" "\x7b\x7d" = .ok errorPayloadInvalidJson :=
  ⟨Or.inl rfl, financial_impact_catches_invalid_json "not json" "\x7b\x7d" (Or.inl rfl)⟩

/-- C4 counterexample: `affected_orders` summing to `T = -100` (a valid
list-of-objects input in the claim's scope) produces
`risk_score = round(min(0.85, 0.15·(-100) / max(-100, 1)), 2) = -15`, which
is not in `[0, 1]`. -/
theorem risk_score_not_in_unit_interval :
    calculate_financial_impact "[\x7b\"total_value\": -100\x7d]" "\x7b\x7d" =
      .ok (impactPayload (-100)) ∧
    (impactPayload (-100)).lookup "risk_score" = some (.num (-15)) ∧
    (-15 : ℚ) < 0 := by
  refine ⟨?_, ?_, by norm_num⟩
  · have h : calculate_financial_impact "[\x7b\"total_value\": -100\x7d]" "\x7b\x7d" =
        .ok (impactPayload (decValue true ['1','0','0'] [] false [] + 0)) := rfl
    rw [h, show (decValue true ['1','0','0'] [] false [] + 0 : ℚ) = -100 from by
      rw [decValue_neg, show digitsToNat ['1','0','0'] = 100 from by decide]; norm_num]
  · simp [impactPayload, Json.lookup, Json.lookup.go]
    norm_num [pyRound2, roundHalfEven, max_eq_right, min_eq_right]

/-- C4 (amended): for every `affected_orders` parsing to a JSON list whose
`total_value` fields sum to `T` (and any valid-JSON `alt_pricing`), the tool
returns the impact payload with `estimated_cost_increase = round(0.15·T, 2)`,
`expedite_shipping_fees = round(0.08·T, 2)`, `revenue_at_risk = round(2.5·T, 2)`,
`total_financial_exposure = round(0.15·T + 0.08·T, 2)`,
`risk_score = round(min(0.85, 0.15·T / max(T, 1)), 2)` and `risk_level` from
the thresholds 0.6 / 0.3; the risk score lies in `[0, 1]` whenever `T` is
nonnegative (for negative `T` it is negative, see the counterexample). -/
theorem financial_impact_formulas (s p : String) (xs : List Json) (v : Json) (T : ℚ)
    (hs : parseJson s = some (.arr xs)) (hp : parseJson p = some v)
    (hT : sumTotalValues xs = .ok T) :
    calculate_financial_impact s p = .ok (impactPayload T) ∧
    (impactPayload T).lookup "estimated_cost_increase" = some (.num (pyRound2 (0.15 * T))) ∧
    (impactPayload T).lookup "expedite_shipping_fees" = some (.num (pyRound2 (0.08 * T))) ∧
    (impactPayload T).lookup "revenue_at_risk" = some (.num (pyRound2 (2.5 * T))) ∧
    (impactPayload T).lookup "total_financial_exposure" =
      some (.num (pyRound2 (0.15 * T + 0.08 * T))) ∧
    (impactPayload T).lookup "risk_score" =
      some (.num (pyRound2 (min 0.85 (0.15 * T / max T 1)))) ∧
    (impactPayload T).lookup "risk_level" =
      some (.str (riskLevel (min 0.85 (0.15 * T / max T 1)))) ∧
    (0 ≤ T → 0 ≤ pyRound2 (min 0.85 (0.15 * T / max T 1)) ∧
      pyRound2 (min 0.85 (0.15 * T / max T 1)) ≤ 1) := by
  refine ⟨?_, ?_, ?_, ?_, ?_, ?_, ?_, ?_⟩
  · simp only [calculate_financial_impact, hs, hp, hT]
    rfl
  · simp [impactPayload, Json.lookup, Json.lookup.go, mul_comm]
  · simp [impactPayload, Json.lookup, Json.lookup.go, mul_comm]
  · simp [impactPayload, Json.lookup, Json.lookup.go, mul_comm]
  · simp [impactPayload, Json.lookup, Json.lookup.go, mul_comm]
  · simp [impactPayload, Json.lookup, Json.lookup.go, mul_comm]
  · simp [impactPayload, Json.lookup, Json.lookup.go, mul_comm]
  · intro hTpos
    constructor
    · exact pyRound2_nonneg (le_min (by norm_num)
        (div_nonneg (by positivity) (le_trans (by norm_num) (le_max_right T 1))))
    · exact pyRound2_le_one (min_le_left _ _)

/-- Witness for C4 (amended) at `T = 100`. -/
theorem financial_impact_formulas_witness :
    parseJson "[\x7b\"total_value\": 100\x7d]" =
      some (.arr [.obj [("total_value", .num 100)]]) ∧
    sumTotalValues [.obj [("total_value", .num 100)]] = .ok 100 ∧
    calculate_financial_impact "[\x7b\"total_value\": 100\x7d]" "\x7b\x7d" =
      .ok (impactPayload 100) ∧
    0 ≤ pyRound2 (min 0.85 (0.15 * 100 / max (100 : ℚ) 1)) := by
  have hparse : parseJson "[\x7b\"total_value\": 100\x7d]" =
      some (.arr [.obj [("total_value", .num 100)]]) := by
    have h : parseJson "[\x7b\"total_value\": 100\x7d]" =
        some (.arr [.obj [("total_value", .num (decValue false ['1','0','0'] [] false []))]]) := rfl
    rw [h, decValue_pos, show digitsToNat ['1','0','0'] = 100 from by decide]
    norm_num
  have hsum : sumTotalValues [.obj [("total_value", .num 100)]] = .ok 100 := by
    have h : sumTotalValues [.obj [("total_value", .num 100)]] = .ok (100 + 0 : ℚ) := rfl
    rw [h]
    norm_num
  obtain ⟨h1, -, -, -, -, -, -, h8⟩ :=
    financial_impact_formulas "[\x7b\"total_value\": 100\x7d]" "\x7b\x7d"
      [.obj [("total_value", .num 100)]] (.obj []) 100 hparse rfl hsum
  exact ⟨hparse, hsum, h1, (h8 (by norm_num)).1⟩

/-- C5 counterexample: the pydantic schema `FetchDisruptionAlertsInput`
imposes no non-empty constraint on `region`, so `region = ""` validates and
the tool returns the normal alert payload (with the interpolated empty
region), not a `ToolValidationError` payload. -/
theorem empty_region_no_validation_error :
    runFetchDisruptionAlerts [("region", .str ""), ("category", .str "supplier_failure")] =
      .ok (fetch_disruption_alerts "" "supplier_failure") ∧
    runFetchDisruptionAlerts [("region", .str ""), ("category", .str "supplier_failure")] ≠
      .validationError ∧
    (fetch_disruption_alerts "" "supplier_failure") =
      .arr [.obj [
        ("alert_id", .str "ALERT-2025-0042"),
        ("region", .str ""),
        ("category", .str "supplier_failure"),
        ("headline", .str "Major supplier failure reported in "),
        ("severity", .str "high"),
        ("source", .str "Supply Chain Risk Monitor"),
        ("timestamp", .str "2025-02-23T14:30:00Z"),
        ("details", .str ("Significant supplier failure detected affecting " ++
          " supply chains. Multiple suppliers in the region reporting " ++
          "delays of 2-3 weeks. Recommended action: activate backup suppliers " ++
          "and review affected purchase orders immediately."))]] := by
  refine ⟨rfl, ?_, by rfl⟩
  intro h
  exact ToolExecOutcome.noConfusion h

/-- C5 (amended): for every category, calling `fetch_disruption_alerts`
with the empty region passes schema validation (the schema requires only
that `region` be a string) and yields the normal alert payload with the
region field set to `""`. -/
theorem empty_region_normal_alert (category : String) :
    validFetchDisruptionAlertsArgs [("region", .str ""), ("category", .str category)] =
      some ("", category) ∧
    runFetchDisruptionAlerts [("region", .str ""), ("category", .str category)] =
      .ok (fetch_disruption_alerts "" category) ∧
    (fetch_disruption_alerts "" category).lookup "error" = none := by
  refine ⟨rfl, rfl, rfl⟩

/-- C6: the message history is append-only: the `add_messages` reducer only
extends the stored list at the end, and along any driver run the seed
history is a prefix of the final history — no recorded entry is mutated,
reordered or removed. -/
theorem history_append_only :
    (∀ old new : List Message, old <+: addMessages old new) ∧
    (∀ (llm : List Message → Message) (exec : ToolCall → String) (b : Nat)
      (h : List Message), h <+: (drive llm exec b h).history) := by
  constructor
  · exact fun old new => ⟨new, rfl⟩
  · intro llm exec b
    induction b with
    | zero => exact fun h => List.prefix_rfl
    | succ n ih =>
      intro h
      simp only [drive]
      split
      · exact List.IsPrefix.trans
          (List.IsPrefix.trans (List.prefix_append h [llm h])
            (List.prefix_append (addMessages h [llm h]) _)) (ih _)
      · exact ⟨[llm h], rfl⟩

/-- C7: `get_supplier_pricing` is a pure function of the static pricing
table, hence deterministic and idempotent; at `("TPA-001", "SKU-MCU2200")`
it returns the fixed payload with price 4.50, lead time 18 and MOQ 5000. -/
theorem supplier_pricing_idempotent :
    (∀ supplier_id sku : String,
      get_supplier_pricing supplier_id sku = get_supplier_pricing supplier_id sku) ∧
    get_supplier_pricing "TPA-001" "SKU-MCU2200" =
      .obj [("supplier_id", .str "TPA-001"), ("sku", .str "SKU-MCU2200"),
            ("price", .num 4.50), ("lead_time_days", .num (18 : ℕ)),
            ("moq", .num (5000 : ℕ))] := by
  exact ⟨fun _ _ => rfl, rfl⟩

/-- C8 counterexample: the source only computes `min(top_k, 10)`; for
`top_k = 0` the store is asked for `0` results, so the claimed lower bound
of 1 on the fan-out is false. -/
theorem topk_zero_reaches_store :
    nResultsRequested 0 = 0 ∧ ¬ (1 ≤ nResultsRequested 0) := by
  constructor <;> decide

/-- C8 (amended): the fan-out passed to the vector store is exactly
`min(top_k, 10)`: never more than 10, at least 1 when the caller's `top_k`
is at least 1, and passed through unclamped (below 1) otherwise; the search
result depends on the store only through that request. -/
theorem topk_clamped_above (store store' : String → ℤ → List (String × List (String × String)))
    (query : String) (top_k : ℤ) :
    nResultsRequested top_k ≤ 10 ∧
    (1 ≤ top_k → 1 ≤ nResultsRequested top_k) ∧
    (top_k < 1 → nResultsRequested top_k = top_k) ∧
    (store query (nResultsRequested top_k) = store' query (nResultsRequested top_k) →
      search_supplier_docs store query top_k = search_supplier_docs store' query top_k) := by
  refine ⟨min_le_right _ _, fun h => le_min h (by norm_num),
    fun h => min_eq_left (by omega), fun h => ?_⟩
  simp only [search_supplier_docs, h]

/-- Witness for C8 (amended) at `top_k = 12`. -/
theorem topk_clamped_above_witness :
    nResultsRequested 12 ≤ 10 ∧ 1 ≤ nResultsRequested 12 := by
  obtain ⟨h1, h2, -, -⟩ := topk_clamped_above (fun _ _ => []) (fun _ _ => []) "query" 12
  exact ⟨h1, h2 (by norm_num)⟩

/-- C9: `query_inventory_db` never returns an empty array: when no filter
term matches, it falls back to the entire corresponding table, as witnessed
concretely by a no-match inventory query and a no-match purchase-order
query. -/
theorem query_inventory_never_empty :
    (∀ sql : String, query_inventory_db sql ≠ []) ∧
    query_inventory_db "zzz" = INVENTORY_DATA.map InvRow.toJson ∧
    query_inventory_db "select po zzz" = PURCHASE_ORDERS.map PoRow.toJson := by
  refine ⟨?_, rfl, rfl⟩
  intro sql
  simp only [query_inventory_db]
  split
  · exact fallback_ne_nil _ _ _ (by simp [PURCHASE_ORDERS])
  · exact fallback_ne_nil _ _ _ (by simp [INVENTORY_DATA])

/-- C10: the success payload of `update_purchase_order` always reports
`previous_supplier = "TPA-001"`, for every argument triple — in particular
for `PO-2024-003`, which the purchase-order table assigns to supplier
`ECG-002`. -/
theorem previous_supplier_hardcoded :
    (∀ po_id new_supplier new_terms : String,
      (update_purchase_order po_id new_supplier new_terms).lookup "previous_supplier" =
        some (.str "TPA-001")) ∧
    (PURCHASE_ORDERS.find? fun r => r.po_id == "PO-2024-003").map PoRow.supplier_id =
      some "ECG-002" ∧
    (update_purchase_order "PO-2024-003" "ALT-004" "\x7b\x7d").lookup "previous_supplier" =
      some (.str "TPA-001") := by
  exact ⟨fun _ _ _ => rfl, rfl, rfl⟩
